import Mathlib

/-!
Shallow embedding of the Redemption Coordinator of the reviews server
(src/unnamed/part_000, with the older revision src/server.js where it
diverges).  The relevant endpoints are:

* POST /api/referral/redeem
* POST /api/referral/mark-discount-used
* POST /api/referral/cancel-redeem
* POST /api/referral/redeem-milestone

together with the helpers createShopifyDiscountCode and
deactivateShopifyDiscount.

Modelling conventions:
* A users-table row is a User record; the milestone map stored as JSON
  text in the referal_discount_code column is modelled as the parsed
  association list (the handler parses it before use and re-serialises
  it after, and an unparsable or NULL column parses to the empty map).
* The database is a list of user rows plus the append-only user_actions
  log; SQL SELECT ... WHERE takes the first matching row, UPDATE ...
  WHERE rewrites every matching row.
* Request-body fields are typed values; JavaScript falsiness of a
  missing or empty field is represented by the empty string for string
  fields and by 0 for numeric fields (a missing field and a falsy one
  take the same branch in the handlers).
* The remote Shopify call of a handler is modelled by an oracle
  argument giving the outcome of the single creation call the handler
  can make; the requests actually sent are returned in requestsSent so
  that "the provider was never invoked" is expressible.
* JavaScript numbers are modelled as Int where the source only ever
  holds integers (points) and as Rat where the source divides
  (discount amounts); toFixed(2) is modelled as rounding to the
  nearest multiple of 1/100.
-/

namespace Reviews

/-- A row of the users table, as read by the handlers.  The
referal_discount_code JSON column is modelled already parsed into an
association list from milestone threshold to issued code. -/
structure User where
  user_id : Nat
  email : String
  points : Int
  referral_count : Int
  last_discount_code : Option String
  discount_code_id : Option String
  referal_discount_code : List (Nat × String)
deriving Repr, DecidableEq

/-- A row of the append-only user_actions table. -/
structure UserAction where
  user_id : Nat
  action_type : String
  points_awarded : Int
deriving Repr, DecidableEq

/-- The persistent state the Coordinator reads and writes. -/
structure Db where
  users : List User
  actions : List UserAction
deriving Repr, DecidableEq

/-- SELECT * FROM users WHERE email = ? (first row). -/
def findUserByEmail (db : Db) (email : String) : Option User :=
  db.users.find? (fun u => u.email == email)

/-- SELECT * FROM users WHERE email = ? AND last_discount_code = ?
(first row; a NULL column never equals a value). -/
def findUserByEmailAndCode (db : Db) (email usedCode : String) : Option User :=
  db.users.find? (fun u => u.email == email && u.last_discount_code == some usedCode)

/-- UPDATE users SET ... WHERE user_id = ?. -/
def updateUserById (db : Db) (uid : Nat) (f : User → User) : Db :=
  { db with users := db.users.map (fun u => if u.user_id == uid then f u else u) }

/-- UPDATE users SET ... WHERE email = ?. -/
def updateUserByEmail (db : Db) (email : String) (f : User → User) : Db :=
  { db with users := db.users.map (fun u => if u.email == email then f u else u) }

/-- INSERT INTO user_actions ... . -/
def appendAction (db : Db) (a : UserAction) : Db :=
  { db with actions := db.actions ++ [a] }

/-- JavaScript truthiness of the optional discount_code_id column, as a
list with at most one element: the ids for which a handler attempts the
remote deactivation. -/
def truthyId (o : Option String) : List String :=
  match o with
  | some s => if s == "" then [] else [s]
  | none => []

/-- The body and status of an error response (res.status(s).json(...)). -/
structure ErrorResponse where
  status : Nat
  error : String
deriving Repr, DecidableEq

/-- The basicCodeDiscount variables built for the Shopify
discountCodeBasicCreate mutation (the fields the source sets). -/
structure DiscountRequest where
  code : String
  title : String
  percentage : Option ℚ
  amount : Option ℚ
  collectionIds : List String
  combinesOrderDiscounts : Bool
  combinesProductDiscounts : Bool
  combinesShippingDiscounts : Bool
  usageLimit : Nat
  appliesOncePerCustomer : Bool
deriving Repr, DecidableEq

/-- amountOff.replace with the non-digit regex: keep only digit characters. -/
def digitsOf (s : String) : String :=
  ⟨s.data.filter Char.isDigit⟩

/-- parseFloat(amountOff.replace(nonDigits, '')) with the source's
trailing or-5: an unparsable (empty) string and a parsed 0 are both
falsy and fall back to 5. -/
def parseAmountOff (amountOff : String) : ℚ :=
  match (digitsOf amountOff).toNat? with
  | none => 5
  | some 0 => 5
  | some n => (n : ℚ)

/-- JavaScript toFixed(2): round to the nearest multiple of 1/100. -/
def toFixed2 (q : ℚ) : ℚ :=
  ((round (q * 100) : ℤ) : ℚ) / 100

/-- The numericValue of the monetary branch of createShopifyDiscountCode:
(pointsToRedeem / 100).toFixed(2) when amountOff is the literal
string dynamic, otherwise the parsed digits of amountOff (or 5). -/
def dynamicNumericValue (amountOff : String) (pointsToRedeem : ℚ) : ℚ :=
  if amountOff == "dynamic" then toFixed2 (pointsToRedeem / 100)
  else parseAmountOff amountOff

/-- The request-building part of createShopifyDiscountCode
(src/unnamed/part_000 lines 251-324).  randomSuffix stands for the
random five-character suffix; the error case is the thrown Error for a
free-product reward without a collectionId. -/
def createDiscountRequest (amountOff : String) (pointsToRedeem : ℚ)
    (rewardType : String) (collectionId : Option String) (randomSuffix : String) :
    Except String DiscountRequest :=
  if rewardType == "free_product" then
    match collectionId with
    | none => Except.error "Missing collectionId for free collection reward"
    | some cid =>
        let code := "MILESTONEFREE_" ++ randomSuffix
        Except.ok
          { code := code
            title := "Free Collection Reward (" ++ code ++ ")"
            percentage := some 1
            amount := none
            collectionIds := [cid]
            combinesOrderDiscounts := false
            combinesProductDiscounts := false
            combinesShippingDiscounts := true
            usageLimit := 1
            appliesOncePerCustomer := true }
  else
    let numericValue := dynamicNumericValue amountOff pointsToRedeem
    let code := "POINTS" ++ toString numericValue ++ "CAD_" ++ randomSuffix
    Except.ok
      { code := code
        title := "$" ++ toString numericValue ++ " Off Points Reward"
        percentage := none
        amount := some numericValue
        collectionIds := []
        combinesOrderDiscounts := true
        combinesProductDiscounts := true
        combinesShippingDiscounts := true
        usageLimit := 1
        appliesOncePerCustomer := true }

/-- Result of createShopifyDiscountCode: the thrown-or-returned value,
plus the list of creation requests actually sent to Shopify. -/
structure IssueResult where
  result : Except String (String × String)
  requestsSent : List DiscountRequest

/-- createShopifyDiscountCode (src/unnamed/part_000 lines 251-372).
issueOutcome is the oracle for the remote response: none models
result.errors or a non-empty userErrors list (the function then throws
Failed to create discount code), some (code, rawId) models a successful
creation returning the code string and the codeDiscountNode id, on
which the source substitutes DiscountCodeBasic for DiscountCodeNode. -/
def createShopifyDiscountCode (amountOff : String) (pointsToRedeem : ℚ)
    (rewardType : String) (collectionId : Option String) (randomSuffix : String)
    (issueOutcome : Option (String × String)) : IssueResult :=
  match createDiscountRequest amountOff pointsToRedeem rewardType collectionId randomSuffix with
  | Except.error e => ⟨Except.error e, []⟩
  | Except.ok req =>
    match issueOutcome with
    | none => ⟨Except.error "Failed to create discount code", [req]⟩
    | some (code, rawId) =>
        ⟨Except.ok (code, rawId.replace "DiscountCodeNode" "DiscountCodeBasic"), [req]⟩

/-- Result of the redeem endpoint: the HTTP response (ok carries
(discountCode, newPoints)), the database after the request, and the
creation requests sent to Shopify during the request. -/
structure RedeemResult where
  response : Except ErrorResponse (String × Int)
  db : Db
  requestsSent : List DiscountRequest

/-- POST /api/referral/redeem (src/unnamed/part_000 lines 149-243;
identical in src/server.js lines 147-241).  Validation is the source's
falsiness check on email and pointsToRedeem; the gift_card branch calls
createShopifyGiftCard, which is referenced nowhere else and defined
nowhere in the repository, so in JavaScript the call throws a
ReferenceError that the handler's catch turns into a 500 response,
after the debit and the ledger insert have already run. -/
def redeem (db : Db) (email : String) (pointsToRedeem : Int)
    (redeemType : String) (redeemValue : String) (randomSuffix : String)
    (issueOutcome : Option (String × String)) : RedeemResult :=
  if email == "" || pointsToRedeem == 0 then
    ⟨Except.error ⟨400, "Missing email or pointsToRedeem."⟩, db, []⟩
  else
    match findUserByEmail db email with
    | none => ⟨Except.error ⟨404, "User not found."⟩, db, []⟩
    | some user =>
      if user.points < pointsToRedeem then
        ⟨Except.error ⟨400, "Not enough points to redeem."⟩, db, []⟩
      else
        let newPoints := user.points - pointsToRedeem
        let db1 := updateUserById db user.user_id (fun u => { u with points := newPoints })
        let db2 := appendAction db1 ⟨user.user_id, "redeem-" ++ redeemType, -pointsToRedeem⟩
        if redeemType == "gift_card" then
          ⟨Except.error ⟨500, "createShopifyGiftCard is not defined"⟩, db2, []⟩
        else
          let issue := createShopifyDiscountCode redeemValue (pointsToRedeem : ℚ)
            "fixed_amount" none randomSuffix issueOutcome
          match issue.result with
          | Except.error e => ⟨Except.error ⟨500, e⟩, db2, issue.requestsSent⟩
          | Except.ok (code, discountId) =>
            let db3 := updateUserById db2 user.user_id (fun u =>
              { u with last_discount_code := some code
                       discount_code_id := some discountId
                       points := newPoints })
            ⟨Except.ok (code, newPoints), db3, issue.requestsSent⟩

/-- Result of the mark-discount-used endpoint: the response, the
database after the request, and the discount ids for which the handler
attempted the best-effort remote deactivation. -/
structure MarkUsedResult where
  response : Except ErrorResponse String
  db : Db
  deactivatedIds : List String

/-- POST /api/referral/mark-discount-used, part_000 revision
(src/unnamed/part_000 lines 481-530): look up the user whose stored
active code matches, clear last_discount_code and discount_code_id
together, then best-effort deactivate the remote discount; the remote
outcome is swallowed and does not change the response or the database. -/
def markUsed (db : Db) (email usedCode : String) : MarkUsedResult :=
  if email == "" || usedCode == "" then
    ⟨Except.error ⟨400, "Missing email or usedCode."⟩, db, []⟩
  else
    match findUserByEmailAndCode db email usedCode with
    | none =>
      ⟨Except.error ⟨404, "User with that code not found or code does not match."⟩, db, []⟩
    | some user =>
      let db1 := updateUserByEmail db email (fun u =>
        { u with last_discount_code := none, discount_code_id := none })
      ⟨Except.ok "Discount removed from DB and deactivated in Shopify (if needed).", db1,
        truthyId user.discount_code_id⟩

/-- POST /api/referral/mark-discount-used, src/server.js revision
(lines 479-517): same lookup, but the UPDATE clears only
last_discount_code and there is no deactivation step. -/
def markUsedV0 (db : Db) (email usedCode : String) : MarkUsedResult :=
  if email == "" || usedCode == "" then
    ⟨Except.error ⟨400, "Missing email or usedCode."⟩, db, []⟩
  else
    match findUserByEmailAndCode db email usedCode with
    | none =>
      ⟨Except.error ⟨404, "User with that code not found or code does not match."⟩, db, []⟩
    | some _ =>
      ⟨Except.ok "Discount code marked as used and removed from user.",
        updateUserByEmail db email (fun u => { u with last_discount_code := none }), []⟩

/-- Result of the cancel-redeem endpoint: ok carries newPoints. -/
structure CancelResult where
  response : Except ErrorResponse Int
  db : Db
  deactivatedIds : List String

/-- POST /api/referral/cancel-redeem (src/unnamed/part_000 lines
534-581): credit pointsToRefund back unconditionally (parseInt of the
body value, modelled as the integer itself), best-effort deactivate the
stored discount id if one exists (outcome swallowed), and clear both
code fields in the same UPDATE that writes the new balance. -/
def cancelRedeem (db : Db) (email : String) (pointsToRefund : Int) : CancelResult :=
  if email == "" || pointsToRefund == 0 then
    ⟨Except.error ⟨400, "Missing email or points to refund."⟩, db, []⟩
  else
    match findUserByEmail db email with
    | none => ⟨Except.error ⟨404, "User not found."⟩, db, []⟩
    | some user =>
      let newPoints := user.points + pointsToRefund
      let db1 := updateUserByEmail db email (fun u =>
        { u with points := newPoints
                 last_discount_code := none
                 discount_code_id := none })
      ⟨Except.ok newPoints, db1, truthyId user.discount_code_id⟩

/-- The milestoneRewards table of the part_000 revision (threshold to
reward name and collection id). -/
def milestoneRewards (t : Nat) : Option (String × String) :=
  if t == 5 then some ("Free Notebook", "gid://shopify/Collection/410265616628")
  else if t == 10 then some ("Free Planner", "gid://shopify/Collection/423756136692")
  else if t == 15 then some ("Free Planner", "gid://shopify/Collection/423756136692")
  else none

/-- Lookup of redeemedMilestones[milestonePoints] in the parsed map. -/
def milestoneLookup (m : List (Nat × String)) (t : Nat) : Option String :=
  (m.find? (fun p => p.1 == t)).map (fun p => p.2)

/-- JavaScript truthiness of redeemedMilestones[milestonePoints]: the
key is present and its code string is non-empty. -/
def milestoneTaken (m : List (Nat × String)) (t : Nat) : Bool :=
  match milestoneLookup m t with
  | some c => c != ""
  | none => false

/-- redeemedMilestones[milestonePoints] = discountCode: overwrite or
insert the binding for threshold t. -/
def milestoneSet (m : List (Nat × String)) (t : Nat) (c : String) : List (Nat × String) :=
  (m.filter (fun p => p.1 != t)) ++ [(t, c)]

/-- Result of the redeem-milestone endpoint: ok carries
(rewardName, discountCode). -/
structure MilestoneResult where
  response : Except ErrorResponse (String × String)
  db : Db
  requestsSent : List DiscountRequest

/-- POST /api/referral/redeem-milestone (src/unnamed/part_000 lines
585-655): validate that email and milestonePoints are truthy and the
threshold is configured, look up the user, require
referral_count at least the threshold, reject if the milestone was
already redeemed, otherwise issue a free-product discount for the
configured collection and store its code under the threshold.  A
thrown provider failure reaches the catch and answers 500. -/
def redeemMilestone (db : Db) (email : String) (milestonePoints : Nat)
    (randomSuffix : String) (issueOutcome : Option (String × String)) : MilestoneResult :=
  if email == "" || milestonePoints == 0 || (milestoneRewards milestonePoints).isNone then
    ⟨Except.error ⟨400, "Invalid request."⟩, db, []⟩
  else
    match findUserByEmail db email with
    | none => ⟨Except.error ⟨404, "User not found."⟩, db, []⟩
    | some user =>
      match milestoneRewards milestonePoints with
      | none => ⟨Except.error ⟨400, "Invalid request."⟩, db, []⟩
      | some (rewardName, collectionId) =>
        if user.referral_count < (milestonePoints : Int) then
          ⟨Except.error
            ⟨400, "You need " ++ toString milestonePoints ++ " referrals to unlock this reward."⟩,
            db, []⟩
        else if milestoneTaken user.referal_discount_code milestonePoints then
          ⟨Except.error ⟨400, "Milestone already redeemed."⟩, db, []⟩
        else
          let issue := createShopifyDiscountCode "100" 0 "free_product"
            (some collectionId) randomSuffix issueOutcome
          match issue.result with
          | Except.error _ => ⟨Except.error ⟨500, "Server error"⟩, db, issue.requestsSent⟩
          | Except.ok (discountCode, _) =>
            let db1 := updateUserById db user.user_id (fun u =>
              { u with referal_discount_code :=
                  milestoneSet u.referal_discount_code milestonePoints discountCode })
            ⟨Except.ok (rewardName, discountCode), db1, issue.requestsSent⟩

/-- Result of deactivateShopifyDiscount: the endsAt value sent in the
update mutation (none when the function throws before sending it), and
the returned-or-thrown value. -/
structure DeactivateRun where
  endsAtSent : Option Nat
  result : Except String Bool

/-- deactivateShopifyDiscount (src/unnamed/part_000 lines 383-466).
startsAtMs is the startsAt read back from the discount, in
milliseconds (none models a missing, null or empty startsAt, all falsy
in the source's guard); updateUserErrors models the userErrors array
of the update mutation.  On a readable start time the function sets
endsAt to startsAt plus one minute (60 * 1000 milliseconds). -/
def deactivateShopifyDiscount (startsAtMs : Option Nat) (updateUserErrors : List String) :
    DeactivateRun :=
  match startsAtMs with
  | none => ⟨none, Except.error "Could not retrieve startsAt for discount"⟩
  | some s =>
    let endsAt := s + 60 * 1000
    ⟨some endsAt,
      match updateUserErrors with
      | [] => Except.ok true
      | e :: _ => Except.error (if e == "" then "Failed to deactivate discount" else e)⟩

/-- The User invariant of the spec: activeRewardCode
(last_discount_code) and activeRewardId (discount_code_id) are both
present or both absent. -/
def pairInv (u : User) : Bool :=
  u.last_discount_code.isSome == u.discount_code_id.isSome

/-- A users-table row as read by the src/server.js revision of
redeem-milestone: that revision reads two distinct columns,
milestone_rewards_discount (kept as the raw text column, only its
truthiness matters, and no statement in the repository ever writes it)
and referal_discount_code (the column the endpoint itself parses and
rewrites, modelled parsed as in User). -/
structure UserV0 where
  user_id : Nat
  email : String
  points : Int
  referral_count : Int
  milestone_rewards_discount : Option String
  referal_discount_code : List (Nat × String)
deriving Repr, DecidableEq

/-- SELECT * FROM users WHERE email = ? over the v0 rows. -/
def findUserV0 (users : List UserV0) (email : String) : Option UserV0 :=
  users.find? (fun u => u.email == email)

/-- UPDATE users SET ... WHERE user_id = ? over the v0 rows. -/
def updateUserV0ById (users : List UserV0) (uid : Nat) (f : UserV0 → UserV0) :
    List UserV0 :=
  users.map (fun u => if u.user_id == uid then f u else u)

/-- JavaScript truthiness of a nullable text column: present and
non-empty. -/
def truthyText (o : Option String) : Bool :=
  match o with
  | some s => s != ""
  | none => false

/-- The milestoneRewards table of the src/server.js revision
(lines 574-580): threshold to reward name and product variant id. -/
def milestoneRewardsV0 (t : Nat) : Option (String × String) :=
  if t == 10 then some ("Free Stickies", "gid://shopify/ProductVariant/7563554193652")
  else if t == 20 then some ("Free Sticker Pack", "gid://shopify/ProductVariant/2345678901")
  else if t == 30 then some ("Free Root Beer", "gid://shopify/ProductVariant/3456789012")
  else if t == 40 then some ("Free Cookies", "gid://shopify/ProductVariant/4567890123")
  else if t == 50 then some ("Free Book", "gid://shopify/ProductVariant/5678901234")
  else none

/-- The basicCodeDiscount variables of the free-product branch of
createShopifyDiscountCode in the src/server.js revision (lines
259-292): a 100.0 percent discount on the given product variant. -/
structure FreeProductRequestV0 where
  code : String
  title : String
  percentage : ℚ
  productVariantIds : List String
  combinesOrderDiscounts : Bool
  combinesProductDiscounts : Bool
  combinesShippingDiscounts : Bool
  usageLimit : Nat
  appliesOncePerCustomer : Bool
deriving Repr, DecidableEq

/-- Request building of that branch: throws when productVariantId is
missing, otherwise builds the free-product discount request. -/
def createFreeProductRequestV0 (productVariantId : Option String) (randomSuffix : String) :
    Except String FreeProductRequestV0 :=
  match productVariantId with
  | none => Except.error "Missing productVariantId for free product reward"
  | some pv =>
    let code := "MILESTONEFREE_" ++ randomSuffix
    Except.ok
      { code := code
        title := "Free Product Reward (" ++ code ++ ")"
        percentage := 100
        productVariantIds := [pv]
        combinesOrderDiscounts := false
        combinesProductDiscounts := false
        combinesShippingDiscounts := true
        usageLimit := 1
        appliesOncePerCustomer := true }

/-- Result of the v0 redeem-milestone endpoint. -/
structure MilestoneResultV0 where
  response : Except ErrorResponse (String × String)
  users : List UserV0
  requestsSent : List FreeProductRequestV0

/-- POST /api/referral/redeem-milestone, src/server.js revision (lines
570-645).  The guard structure matches part_000 except for the parse
step (lines 605-613): the parse of referal_discount_code is gated on
the truthiness of the distinct column milestone_rewards_discount, so
when that column is falsy the already-redeemed map is taken to be
empty whatever referal_discount_code holds; the issued code is then
stored (line 626-631) into referal_discount_code based on that same
possibly-empty map. -/
def redeemMilestoneV0 (users : List UserV0) (email : String) (milestonePoints : Nat)
    (randomSuffix : String) (issueOutcome : Option (String × String)) : MilestoneResultV0 :=
  if email == "" || milestonePoints == 0 || (milestoneRewardsV0 milestonePoints).isNone then
    ⟨Except.error ⟨400, "Invalid request."⟩, users, []⟩
  else
    match findUserV0 users email with
    | none => ⟨Except.error ⟨404, "User not found."⟩, users, []⟩
    | some user =>
      match milestoneRewardsV0 milestonePoints with
      | none => ⟨Except.error ⟨400, "Invalid request."⟩, users, []⟩
      | some (rewardName, productVariantId) =>
        if user.referral_count < (milestonePoints : Int) then
          ⟨Except.error
            ⟨400, "You need " ++ toString milestonePoints ++ " referrals to unlock this reward."⟩,
            users, []⟩
        else
          let redeemedMilestones :=
            if truthyText user.milestone_rewards_discount then user.referal_discount_code
            else []
          if milestoneTaken redeemedMilestones milestonePoints then
            ⟨Except.error ⟨400, "Milestone already redeemed."⟩, users, []⟩
          else
            match createFreeProductRequestV0 (some productVariantId) randomSuffix with
            | Except.error _ => ⟨Except.error ⟨500, "Server error"⟩, users, []⟩
            | Except.ok req =>
              match issueOutcome with
              | none => ⟨Except.error ⟨500, "Server error"⟩, users, [req]⟩
              | some (discountCode, _) =>
                let users1 := updateUserV0ById users user.user_id (fun u =>
                  { u with referal_discount_code :=
                      milestoneSet redeemedMilestones milestonePoints discountCode })
                ⟨Except.ok (rewardName, discountCode), users1, [req]⟩

/-! Helper lemmas about SELECT-after-UPDATE. -/

theorem find_map_pred {α : Type} (g : α → α) (p : α → Bool)
    (hp : ∀ x, p (g x) = p x) :
    ∀ (l : List α) (a : α), l.find? p = some a → (l.map g).find? p = some (g a) := by
  intro l
  induction l with
  | nil => intro a h; simp [List.find?] at h
  | cons x xs ih =>
    intro a h
    by_cases hx : p x = true
    · rw [List.find?_cons_of_pos _ hx] at h
      injection h with h
      subst h
      rw [List.map_cons, List.find?_cons_of_pos]
      rw [hp]; exact hx
    · rw [List.find?_cons_of_neg _ hx] at h
      rw [List.map_cons, List.find?_cons_of_neg]
      · exact ih a h
      · rw [hp]; exact hx

theorem find_map_none {α : Type} (g : α → α) (p : α → Bool)
    (l : List α) (h : ∀ x, p (g x) = false) : (l.map g).find? p = none := by
  rw [List.find?_eq_none]
  intro x hx
  obtain ⟨y, _, rfl⟩ := List.mem_map.mp hx
  simp [h]

theorem findUserByEmail_updateUserById (db : Db) (email : String) (uid : Nat)
    (f : User → User) (hf : ∀ x, (f x).email = x.email) (u : User)
    (h : findUserByEmail db email = some u) :
    findUserByEmail (updateUserById db uid f) email =
      some (if u.user_id == uid then f u else u) := by
  unfold findUserByEmail updateUserById
  apply find_map_pred
  · intro x
    by_cases hx : x.user_id == uid <;> simp [hx, hf]
  · exact h

theorem findUserByEmail_updateUserByEmail (db : Db) (email : String)
    (f : User → User) (hf : ∀ x, (f x).email = x.email) (u : User)
    (h : findUserByEmail db email = some u) :
    findUserByEmail (updateUserByEmail db email f) email = some (f u) := by
  have h' : db.users.find? (fun x => x.email == email) = some u := h
  have hu := List.find?_some h'
  have := find_map_pred (fun x => if x.email == email then f x else x)
    (fun x => x.email == email) ?hp db.users u h
  case hp =>
    intro x
    by_cases hx : x.email == email <;> simp [hx, hf]
  unfold findUserByEmail updateUserByEmail
  simpa [hu] using this

theorem findUserByEmailAndCode_after_clear (db : Db) (email usedCode : String)
    (f : User → User) (hf : ∀ x, (f x).email = x.email)
    (hc : ∀ x, (f x).last_discount_code = none) :
    findUserByEmailAndCode (updateUserByEmail db email f) email usedCode = none := by
  unfold findUserByEmailAndCode updateUserByEmail
  apply find_map_none
  intro x
  by_cases hx : x.email == email
  · simp only [hx, if_true]
    have : ((f x).last_discount_code == some usedCode) = false := by
      rw [hc]; rfl
    simp [hf, hx, this]
  · simp only [hx, if_false]
    simp only [Bool.and_eq_false_iff]
    left
    exact Bool.eq_false_iff.mpr hx

/-! Claim theorems. -/

/-- C2: for every user and every redeem request whose pointsToRedeem
exceeds the user's current points balance, redeem answers the
insufficient-balance error, leaves the database (balance and ledger)
unchanged, and never sends a creation request to the provider. -/
theorem c2_insufficient_balance_no_mutation (db : Db) (email : String) (p : Int)
    (redeemType redeemValue randomSuffix : String)
    (issueOutcome : Option (String × String)) (user : User)
    (hemail : email ≠ "")
    (hfind : findUserByEmail db email = some user)
    (hpts : 0 ≤ user.points)
    (hlt : user.points < p) :
    redeem db email p redeemType redeemValue randomSuffix issueOutcome =
      ⟨Except.error ⟨400, "Not enough points to redeem."⟩, db, []⟩ := by
  have hp : p ≠ 0 := by omega
  have he : (email == "") = false := by
    simp [hemail]
  have hp' : (p == 0) = false := by
    simp [hp]
  unfold redeem
  rw [he, hp', hfind]
  simp only [Bool.or_self, Bool.false_eq_true, if_false]
  rw [if_pos hlt]

/-- Witness for C2 at a concrete input: a user with 5 points asking to
redeem 10 is refused and nothing changes. -/
theorem c2_witness :
    redeem ⟨[⟨1, "a@b.c", 5, 0, none, none, []⟩], []⟩ "a@b.c" 10 "discount" "dynamic" "SUF" none =
      ⟨Except.error ⟨400, "Not enough points to redeem."⟩,
        ⟨[⟨1, "a@b.c", 5, 0, none, none, []⟩], []⟩, []⟩ :=
  c2_insufficient_balance_no_mutation _ "a@b.c" 10 "discount" "dynamic" "SUF" none
    ⟨1, "a@b.c", 5, 0, none, none, []⟩ (by decide) rfl (by decide) (by decide)

/-- C3: a redeem request that passes validation, user lookup and the
balance check, but whose provider issue step fails, answers an error
while the debit and its ledger entry stay applied and the stored
active-code fields are untouched (no code is stored). -/
theorem c3_provider_failure_leaves_debit (db : Db) (email : String) (p : Int)
    (redeemType redeemValue randomSuffix : String) (user : User)
    (hemail : email ≠ "") (hp : p ≠ 0)
    (hfind : findUserByEmail db email = some user)
    (hbal : ¬ user.points < p)
    (hkind : redeemType ≠ "gift_card") :
    (redeem db email p redeemType redeemValue randomSuffix none).response =
      Except.error ⟨500, "Failed to create discount code"⟩ ∧
    findUserByEmail (redeem db email p redeemType redeemValue randomSuffix none).db email =
      some { user with points := user.points - p } ∧
    (redeem db email p redeemType redeemValue randomSuffix none).db.actions =
      db.actions ++ [⟨user.user_id, "redeem-" ++ redeemType, -p⟩] := by
  have he : (email == "") = false := by simp [hemail]
  have hp' : (p == 0) = false := by simp [hp]
  have hk : (redeemType == "gift_card") = false := by simp [hkind]
  have hfa : (("fixed_amount" : String) == "free_product") = false := by decide
  unfold redeem
  rw [he, hp', hfind]
  simp only [Bool.or_self, Bool.false_eq_true, if_false]
  rw [if_neg hbal, hk]
  simp only [Bool.false_eq_true, if_false, createShopifyDiscountCode, createDiscountRequest,
    hfa]
  refine ⟨trivial, ?_, rfl⟩
  have hstep := findUserByEmail_updateUserById db email user.user_id
    (fun u => { u with points := user.points - p }) (fun x => rfl) user hfind
  simp only [beq_self_eq_true, if_true] at hstep
  exact hstep

/-- Witness for C3 at a concrete input: a user with 50 points redeems
30, the provider fails, the caller gets the error and the balance stays
at 20 with the ledger entry recorded. -/
theorem c3_witness :
    (redeem ⟨[⟨1, "a@b.c", 50, 0, none, none, []⟩], []⟩
        "a@b.c" 30 "discount" "dynamic" "SUF" none).response =
      Except.error ⟨500, "Failed to create discount code"⟩ ∧
    findUserByEmail (redeem ⟨[⟨1, "a@b.c", 50, 0, none, none, []⟩], []⟩
        "a@b.c" 30 "discount" "dynamic" "SUF" none).db "a@b.c" =
      some ⟨1, "a@b.c", 50 - 30, 0, none, none, []⟩ ∧
    (redeem ⟨[⟨1, "a@b.c", 50, 0, none, none, []⟩], []⟩
        "a@b.c" 30 "discount" "dynamic" "SUF" none).db.actions =
      [] ++ [⟨1, "redeem-" ++ "discount", -30⟩] :=
  c3_provider_failure_leaves_debit ⟨[⟨1, "a@b.c", 50, 0, none, none, []⟩], []⟩ "a@b.c" 30
    "discount" "dynamic" "SUF" ⟨1, "a@b.c", 50, 0, none, none, []⟩
    (by decide) (by decide) rfl (by decide) (by decide)

/-- C10: a gift_card redeem request that passes validation, user
lookup and the balance check always ends in an error response (the
issuer function createShopifyGiftCard is defined nowhere in the
repository, so the call raises), no creation request is ever sent, and
the debit and its ledger entry stay applied. -/
theorem c10_gift_card_always_errors (db : Db) (email : String) (p : Int)
    (redeemValue randomSuffix : String) (issueOutcome : Option (String × String)) (user : User)
    (hemail : email ≠ "") (hp : p ≠ 0)
    (hfind : findUserByEmail db email = some user)
    (hbal : ¬ user.points < p) :
    (redeem db email p "gift_card" redeemValue randomSuffix issueOutcome).response =
      Except.error ⟨500, "createShopifyGiftCard is not defined"⟩ ∧
    (redeem db email p "gift_card" redeemValue randomSuffix issueOutcome).requestsSent = [] ∧
    findUserByEmail (redeem db email p "gift_card" redeemValue randomSuffix issueOutcome).db
        email = some { user with points := user.points - p } ∧
    (redeem db email p "gift_card" redeemValue randomSuffix issueOutcome).db.actions =
      db.actions ++ [⟨user.user_id, "redeem-" ++ "gift_card", -p⟩] := by
  have he : (email == "") = false := by simp [hemail]
  have hp' : (p == 0) = false := by simp [hp]
  unfold redeem
  rw [he, hp', hfind]
  simp only [Bool.or_self, Bool.false_eq_true, if_false]
  rw [if_neg hbal]
  simp only [show (("gift_card" : String) == "gift_card") = true from rfl, if_true]
  refine ⟨trivial, trivial, ?_, rfl⟩
  have hstep := findUserByEmail_updateUserById db email user.user_id
    (fun u => { u with points := user.points - p }) (fun x => rfl) user hfind
  simp only [beq_self_eq_true, if_true] at hstep
  exact hstep

/-- Witness for C10 at a concrete input: a gift_card redeem of 30 out
of 50 points answers the 500 error, sends nothing to the provider, and
leaves the balance debited to 20 with the ledger entry appended. -/
theorem c10_witness :
    (redeem ⟨[⟨1, "a@b.c", 50, 0, none, none, []⟩], []⟩
        "a@b.c" 30 "gift_card" "25" "SUF" none).response =
      Except.error ⟨500, "createShopifyGiftCard is not defined"⟩ ∧
    (redeem ⟨[⟨1, "a@b.c", 50, 0, none, none, []⟩], []⟩
        "a@b.c" 30 "gift_card" "25" "SUF" none).requestsSent = [] ∧
    findUserByEmail (redeem ⟨[⟨1, "a@b.c", 50, 0, none, none, []⟩], []⟩
        "a@b.c" 30 "gift_card" "25" "SUF" none).db "a@b.c" =
      some ⟨1, "a@b.c", 50 - 30, 0, none, none, []⟩ ∧
    (redeem ⟨[⟨1, "a@b.c", 50, 0, none, none, []⟩], []⟩
        "a@b.c" 30 "gift_card" "25" "SUF" none).db.actions =
      [] ++ [⟨1, "redeem-" ++ "gift_card", -30⟩] :=
  c10_gift_card_always_errors ⟨[⟨1, "a@b.c", 50, 0, none, none, []⟩], []⟩ "a@b.c" 30
    "25" "SUF" none ⟨1, "a@b.c", 50, 0, none, none, []⟩
    (by decide) (by decide) rfl (by decide)

/-- C4: a successful redeem of n points immediately followed by
cancelRedeem of the same n restores the pre-redeem balance exactly and
clears both active-code fields. -/
theorem c4_redeem_then_cancel_restores (db : Db) (email : String) (n : Int)
    (redeemType redeemValue randomSuffix code rawId : String) (user : User)
    (hemail : email ≠ "") (hn : 0 < n) (hbal : n ≤ user.points)
    (hfind : findUserByEmail db email = some user)
    (hkind : redeemType ≠ "gift_card") :
    (redeem db email n redeemType redeemValue randomSuffix (some (code, rawId))).response =
      Except.ok (code, user.points - n) ∧
    (cancelRedeem
        (redeem db email n redeemType redeemValue randomSuffix (some (code, rawId))).db
        email n).response = Except.ok user.points ∧
    findUserByEmail
        (cancelRedeem
          (redeem db email n redeemType redeemValue randomSuffix (some (code, rawId))).db
          email n).db email =
      some { user with last_discount_code := none, discount_code_id := none } := by
  have he : (email == "") = false := by simp [hemail]
  have hn0 : n ≠ 0 := by omega
  have hn' : (n == 0) = false := by simp [hn0]
  have hk : (redeemType == "gift_card") = false := by simp [hkind]
  have hba : ¬ user.points < n := by omega
  have hfa : (("fixed_amount" : String) == "free_product") = false := by decide
  have harith : user.points - n + n = user.points := by omega
  unfold redeem
  rw [he, hn', hfind]
  simp only [Bool.or_self, Bool.false_eq_true, if_false]
  rw [if_neg hba, hk]
  simp only [Bool.false_eq_true, if_false, createShopifyDiscountCode, createDiscountRequest,
    hfa]
  have hs1 := findUserByEmail_updateUserById db email user.user_id
    (fun u => { u with points := user.points - n }) (fun x => rfl) user hfind
  simp only [beq_self_eq_true, if_true] at hs1
  have hs3 := findUserByEmail_updateUserById
    (appendAction
      (updateUserById db user.user_id (fun u => { u with points := user.points - n }))
      ⟨user.user_id, "redeem-" ++ redeemType, -n⟩)
    email user.user_id
    (fun u =>
      { u with last_discount_code := some code
               discount_code_id := some (rawId.replace "DiscountCodeNode" "DiscountCodeBasic")
               points := user.points - n })
    (fun x => rfl) { user with points := user.points - n } hs1
  simp only [beq_self_eq_true, if_true] at hs3
  refine ⟨trivial, ?_, ?_⟩
  · unfold cancelRedeem
    rw [he, hn', hs3]
    simp only [Bool.or_self, Bool.false_eq_true, if_false]
    exact congrArg Except.ok harith
  · unfold cancelRedeem
    rw [he, hn', hs3]
    simp only [Bool.or_self, Bool.false_eq_true, if_false]
    have hs4 := findUserByEmail_updateUserByEmail
      (updateUserById
        (appendAction
          (updateUserById db user.user_id (fun u => { u with points := user.points - n }))
          ⟨user.user_id, "redeem-" ++ redeemType, -n⟩)
        user.user_id
        (fun u =>
          { u with last_discount_code := some code
                   discount_code_id := some (rawId.replace "DiscountCodeNode" "DiscountCodeBasic")
                   points := user.points - n }))
      email
      (fun u =>
        { u with points := user.points - n + n
                 last_discount_code := none
                 discount_code_id := none })
      (fun x => rfl)
      { user with points := user.points - n
                  last_discount_code := some code
                  discount_code_id :=
                    some (rawId.replace "DiscountCodeNode" "DiscountCodeBasic") }
      hs3
    rw [hs4]
    simp only [Option.some.injEq, User.mk.injEq, harith, and_self, and_true, true_and]

/-- Witness for C4 at a concrete input: 50 points, redeem 30 (provider
succeeds), cancel 30: the response returns the code with balance 20,
the cancellation answers 50, and the code fields are cleared. -/
theorem c4_witness :
    (redeem ⟨[⟨1, "a@b.c", 50, 0, none, none, []⟩], []⟩
        "a@b.c" 30 "discount" "dynamic" "SUF"
        (some ("CODE", "gid://s/DiscountCodeNode/9"))).response =
      Except.ok ("CODE", 50 - 30) ∧
    (cancelRedeem
        (redeem ⟨[⟨1, "a@b.c", 50, 0, none, none, []⟩], []⟩
          "a@b.c" 30 "discount" "dynamic" "SUF"
          (some ("CODE", "gid://s/DiscountCodeNode/9"))).db
        "a@b.c" 30).response = Except.ok 50 ∧
    findUserByEmail
        (cancelRedeem
          (redeem ⟨[⟨1, "a@b.c", 50, 0, none, none, []⟩], []⟩
            "a@b.c" 30 "discount" "dynamic" "SUF"
            (some ("CODE", "gid://s/DiscountCodeNode/9"))).db
          "a@b.c" 30).db "a@b.c" =
      some ⟨1, "a@b.c", 50, 0, none, none, []⟩ :=
  c4_redeem_then_cancel_restores ⟨[⟨1, "a@b.c", 50, 0, none, none, []⟩], []⟩ "a@b.c" 30
    "discount" "dynamic" "SUF" "CODE" "gid://s/DiscountCodeNode/9"
    ⟨1, "a@b.c", 50, 0, none, none, []⟩
    (by decide) (by decide) (by decide) rfl (by decide)

/-- In the part_000 revision, redeemMilestone for a configured
threshold already present in the user's milestone map (with an issued,
hence non-empty, code) rejects with a 400 error, sends no creation
request, and leaves the database unchanged, whatever the user's
referral count is: that revision gates the parse on the same
referal_discount_code column it stores into. -/
theorem redeemMilestone_taken_rejects (db : Db) (email : String) (t : Nat)
    (randomSuffix : String) (issueOutcome : Option (String × String)) (user : User)
    (hemail : email ≠ "")
    (hconf : (milestoneRewards t).isSome = true)
    (hfind : findUserByEmail db email = some user)
    (htaken : milestoneTaken user.referal_discount_code t = true) :
    ∃ e, redeemMilestone db email t randomSuffix issueOutcome =
      ⟨Except.error e, db, []⟩ ∧ e.status = 400 := by
  have ht0 : t ≠ 0 := by
    intro h
    subst h
    simp [milestoneRewards] at hconf
  have he : (email == "") = false := by simp [hemail]
  have ht' : (t == 0) = false := by simp [ht0]
  have hn : (milestoneRewards t).isNone = false := by
    cases h : milestoneRewards t with
    | none => rw [h] at hconf; simp at hconf
    | some r => rfl
  obtain ⟨⟨rewardName, collectionId⟩, hr⟩ := Option.isSome_iff_exists.mp hconf
  unfold redeemMilestone
  rw [he, ht', hn, hfind, hr]
  simp only [Bool.or_self, Bool.or_false, Bool.false_eq_true, if_false]
  by_cases hrc : user.referral_count < (t : Int)
  · rw [if_pos hrc]
    exact ⟨⟨400, "You need " ++ toString t ++ " referrals to unlock this reward."⟩, rfl, rfl⟩
  · rw [if_neg hrc, htaken]
    exact ⟨⟨400, "Milestone already redeemed."⟩, by simp, rfl⟩

/-- C6, failing input: in the src/server.js revision the parse of the
redeemed-milestones map is gated on the milestone_rewards_discount
column (line 607), which no statement in the repository ever writes,
while the map itself lives in referal_discount_code (lines 609 and
629).  For a user whose earlier redemption stored a code under
threshold 10 in referal_discount_code, a repeated call therefore sees
an empty map, passes the already-redeemed guard, issues a second code
and overwrites the stored entry, instead of rejecting as the claim
requires (the final conjunct records that the threshold was indeed
already present in the stored map). -/
theorem c6_milestoneV0_reissues_already_redeemed :
    (redeemMilestoneV0
        [⟨1, "a@b.c", 0, 12, none, [(10, "MILESTONEFREE_X1AB2")]⟩]
        "a@b.c" 10 "SUF" (some ("MILESTONEFREE_Y3CD4", "gid://s/DiscountCodeBasic/9"))).response =
      Except.ok ("Free Stickies", "MILESTONEFREE_Y3CD4") ∧
    (redeemMilestoneV0
        [⟨1, "a@b.c", 0, 12, none, [(10, "MILESTONEFREE_X1AB2")]⟩]
        "a@b.c" 10 "SUF" (some ("MILESTONEFREE_Y3CD4", "gid://s/DiscountCodeBasic/9"))).users =
      [⟨1, "a@b.c", 0, 12, none, [(10, "MILESTONEFREE_Y3CD4")]⟩] ∧
    (redeemMilestoneV0
        [⟨1, "a@b.c", 0, 12, none, [(10, "MILESTONEFREE_X1AB2")]⟩]
        "a@b.c" 10 "SUF"
        (some ("MILESTONEFREE_Y3CD4", "gid://s/DiscountCodeBasic/9"))).requestsSent.length = 1 ∧
    milestoneTaken [(10, "MILESTONEFREE_X1AB2")] 10 = true :=
  ⟨rfl, rfl, rfl, rfl⟩

/-- C7: after a markUsed call that matched and cleared the stored
active code, an immediately repeated markUsed with the same code
answers the 404 not-found error and changes nothing. -/
theorem c7_markUsed_twice_second_not_found (db : Db) (email usedCode : String) (user : User)
    (hemail : email ≠ "") (hcode : usedCode ≠ "")
    (hfind : findUserByEmailAndCode db email usedCode = some user) :
    (∃ m, (markUsed db email usedCode).response = Except.ok m) ∧
    (markUsed (markUsed db email usedCode).db email usedCode).response =
      Except.error ⟨404, "User with that code not found or code does not match."⟩ ∧
    (markUsed (markUsed db email usedCode).db email usedCode).db =
      (markUsed db email usedCode).db := by
  have he : (email == "") = false := by simp [hemail]
  have hc : (usedCode == "") = false := by simp [hcode]
  unfold markUsed
  rw [he, hc, hfind]
  simp only [Bool.or_self, Bool.false_eq_true, if_false]
  have hnone := findUserByEmailAndCode_after_clear db email usedCode
    (fun u => { u with last_discount_code := none, discount_code_id := none })
    (fun x => rfl) (fun x => rfl)
  rw [hnone]
  exact ⟨⟨_, rfl⟩, rfl, rfl⟩

/-- Witness for C7 at a concrete input: the second markUsed with the
same code is refused with 404 and leaves the state of the first call. -/
theorem c7_witness :
    (∃ m, (markUsed ⟨[⟨1, "a@b.c", 20, 0, some "CODE", some "ID", []⟩], []⟩
        "a@b.c" "CODE").response = Except.ok m) ∧
    (markUsed (markUsed ⟨[⟨1, "a@b.c", 20, 0, some "CODE", some "ID", []⟩], []⟩
        "a@b.c" "CODE").db "a@b.c" "CODE").response =
      Except.error ⟨404, "User with that code not found or code does not match."⟩ ∧
    (markUsed (markUsed ⟨[⟨1, "a@b.c", 20, 0, some "CODE", some "ID", []⟩], []⟩
        "a@b.c" "CODE").db "a@b.c" "CODE").db =
      (markUsed ⟨[⟨1, "a@b.c", 20, 0, some "CODE", some "ID", []⟩], []⟩ "a@b.c" "CODE").db :=
  c7_markUsed_twice_second_not_found
    ⟨[⟨1, "a@b.c", 20, 0, some "CODE", some "ID", []⟩], []⟩ "a@b.c" "CODE"
    ⟨1, "a@b.c", 20, 0, some "CODE", some "ID", []⟩
    (by decide) (by decide) rfl

/-- C8: for a Dynamic reward spec the basicCodeDiscount creation
request carries a discountAmount equal to pointsRedeemed / 100, and
that value is already exact to two decimal places, so it equals
pointsRedeemed / 100 rounded to two decimals (100 points = one
currency unit). -/
theorem c8_dynamic_amount_is_points_div_100 (p : Int) (randomSuffix : String)
    (issueOutcome : Option (String × String)) :
    ((createShopifyDiscountCode "dynamic" (p : ℚ) "fixed_amount" none randomSuffix
        issueOutcome).requestsSent.map DiscountRequest.amount) = [some ((p : ℚ) / 100)] ∧
    toFixed2 ((p : ℚ) / 100) = (p : ℚ) / 100 := by
  have hfix : toFixed2 ((p : ℚ) / 100) = (p : ℚ) / 100 := by
    unfold toFixed2
    rw [div_mul_cancel₀ _ (by norm_num : (100 : ℚ) ≠ 0), round_intCast]
  refine ⟨?_, hfix⟩
  have hfa : (("fixed_amount" : String) == "free_product") = false := by decide
  have hdy : (("dynamic" : String) == "dynamic") = true := by decide
  cases issueOutcome with
  | none =>
    simp [createShopifyDiscountCode, createDiscountRequest, dynamicNumericValue, hfa, hdy, hfix]
  | some v =>
    obtain ⟨c, i⟩ := v
    simp [createShopifyDiscountCode, createDiscountRequest, dynamicNumericValue, hfa, hdy, hfix]

/-- C9: when the start time of the discount can be read, deactivation
sends an end time of exactly the start time plus one minute
(60 * 1000 milliseconds); when it cannot be read, the function throws
instead of sending anything. -/
theorem c9_deactivate_end_is_start_plus_one_minute (s : Nat)
    (updateUserErrors errsWhenUnreadable : List String) :
    (deactivateShopifyDiscount (some s) updateUserErrors).endsAtSent = some (s + 60 * 1000) ∧
    (deactivateShopifyDiscount none errsWhenUnreadable).endsAtSent = none ∧
    (deactivateShopifyDiscount none errsWhenUnreadable).result =
      Except.error "Could not retrieve startsAt for discount" :=
  ⟨rfl, rfl, rfl⟩

/-- C1, failing input: the mark-discount-used handler of the
src/server.js revision clears only last_discount_code, so on a user
holding both fields it succeeds yet leaves exactly one of the two
fields set, breaking the both-or-neither invariant that the part_000
revision (which clears both in one UPDATE) maintains. -/
theorem c1_markUsedV0_leaves_reward_id_alone :
    (markUsedV0
        ⟨[⟨1, "a@b.c", 20, 0, some "POINTS5CAD_AB12C", some "gid://s/DiscountCodeBasic/7", []⟩],
          []⟩ "a@b.c" "POINTS5CAD_AB12C").response =
      Except.ok "Discount code marked as used and removed from user." ∧
    (markUsedV0
        ⟨[⟨1, "a@b.c", 20, 0, some "POINTS5CAD_AB12C", some "gid://s/DiscountCodeBasic/7", []⟩],
          []⟩ "a@b.c" "POINTS5CAD_AB12C").db.users =
      [⟨1, "a@b.c", 20, 0, none, some "gid://s/DiscountCodeBasic/7", []⟩] ∧
    pairInv ⟨1, "a@b.c", 20, 0, none, some "gid://s/DiscountCodeBasic/7", []⟩ = false ∧
    pairInv ⟨1, "a@b.c", 20, 0, some "POINTS5CAD_AB12C", some "gid://s/DiscountCodeBasic/7", []⟩
      = true :=
  ⟨rfl, rfl, rfl, rfl⟩

/-- C5, failing input: redeem validates only JavaScript falsiness of
pointsToRedeem, so a negative amount (here -5, against a balance of 5)
passes validation, passes the balance check (5 < -5 is false), is
debited as an addition raising the balance to 10, logs a +5 ledger
entry, and sends a creation request to the provider, ending in a
success response instead of the ValidationError the claim requires. -/
theorem c5_negative_redeem_passes_validation_and_credits :
    (redeem ⟨[⟨1, "a@b.c", 5, 0, none, none, []⟩], []⟩
        "a@b.c" (-5) "discount" "dynamic" "SUF" (some ("C", "ID"))).response =
      Except.ok ("C", 10) ∧
    (redeem ⟨[⟨1, "a@b.c", 5, 0, none, none, []⟩], []⟩
        "a@b.c" (-5) "discount" "dynamic" "SUF" (some ("C", "ID"))).db.users =
      [⟨1, "a@b.c", 10, 0, some "C",
        some ("ID".replace "DiscountCodeNode" "DiscountCodeBasic"), []⟩] ∧
    (redeem ⟨[⟨1, "a@b.c", 5, 0, none, none, []⟩], []⟩
        "a@b.c" (-5) "discount" "dynamic" "SUF" (some ("C", "ID"))).db.actions =
      [⟨1, "redeem-discount", 5⟩] ∧
    (redeem ⟨[⟨1, "a@b.c", 5, 0, none, none, []⟩], []⟩
        "a@b.c" (-5) "discount" "dynamic" "SUF" (some ("C", "ID"))).requestsSent.length = 1 :=
  ⟨rfl, rfl, rfl, rfl⟩

end Reviews
